import Mathlib

/-!
Shallow embedding of the pyGTEx endpoint-model library.

The repository has two generations of the model code: `pygtex.py` (all six
endpoint models, no annotation-version validation) and `src/pyGTEx/models.py`
(tissue-info, single-gene and multi-gene models, with validation of the
gencode-version / genome-build pair in `Model.__init__`).  The definitions
below translate each model's `__init__`/`_fetch` pair into a pure constructor
from a fetch outcome to `Except`, and each accessor into a pure function on
the stored state.  Network activity is modelled by a `FetchOutcome` value
(either a network/JSON failure or a parsed response body); the `Nat` paired
with the validated constructors counts how many network requests the
construction performed.
-/

/-- Python `s.lower()`: lower-case every character of the string. -/
def pyLower (s : String) : String :=
  String.mk (s.data.map Char.toLower)

/-- Python `s.startswith(p)`: `p` is a prefix of `s` (case-sensitive). -/
def pyStartsWith (s p : String) : Bool :=
  p.data.isPrefixOf s.data

/-- Split a character list at every occurrence of the separator `c`.
Mirrors Python `str.split(sep)` for a one-character separator: the empty
string yields `[[]]`, and adjacent separators yield empty pieces. -/
def splitOnChar (c : Char) : List Char → List (List Char)
  | [] => [[]]
  | x :: xs =>
    let r := splitOnChar c xs
    if x = c then [] :: r
    else
      match r with
      | [] => [[x]]
      | y :: ys => (x :: y) :: ys

/-- Python `s.split(c)` for a one-character separator `c`. -/
def pySplit (c : Char) (s : String) : List String :=
  (splitOnChar c s.data).map String.mk

/-- A record of the `reference/gene` endpoint's `gene` list
(`entrezGeneId`, `gencodeId`, `geneSymbol`, `geneType`). -/
structure GeneRecord where
  entrezGeneId : Int
  gencodeId : String
  geneSymbol : String
  geneType : String
deriving DecidableEq

/-- A record of the `dataset/tissueInfo` endpoint's `tissueInfo` list. -/
structure TissueRecord where
  datasetId : String
  samplingSite : String
  tissueSite : String
  tissueSiteDetail : String
  tissueSiteDetailAbbr : String
  tissueSiteDetailId : String
  uberonId : String
deriving DecidableEq

/-- An entry of the `expression/geneExpression` endpoint's `geneExpression`
list; `data` is the raw sample sequence, `subsetGroup` the optional
stratification label.  Numeric expression values are modelled as rationals. -/
structure ExpressionEntry where
  data : List Rat
  datasetId : String
  gencodeId : String
  geneSymbol : String
  tissueSiteDetailId : String
  unit : String
  subsetGroup : Option String
deriving DecidableEq

/-- A record of the `expression/medianGeneExpression` (and
`expression/topExpressedGene`) endpoint's record list. -/
structure MedianRecord where
  datasetId : String
  gencodeId : String
  geneSymbol : String
  median : Rat
  tissueSiteDetailId : String
  unit : String
deriving DecidableEq

/-- The `clusters` object of the median-gene-expression response: two
Newick-format cluster strings, one over genes and one over tissues. -/
structure Clusters where
  gene : String
  tissue : String
deriving DecidableEq

/-- Parsed body of a `reference/gene` response.  The field is `none` when the
JSON object lacks the `gene` top-level key. -/
structure GeneResponse where
  gene : Option (List GeneRecord)
deriving DecidableEq

/-- Parsed body of a `dataset/tissueInfo` response; `none` models a missing
`tissueInfo` top-level key. -/
structure TissueResponse where
  tissueInfo : Option (List TissueRecord)
deriving DecidableEq

/-- Parsed body of an `expression/geneExpression` response; `none` models a
missing `geneExpression` top-level key. -/
structure GeneExpressionResponse where
  geneExpression : Option (List ExpressionEntry)
deriving DecidableEq

/-- Parsed body of an `expression/medianGeneExpression` response.
`medianGeneExpression = none` models a missing required top-level key;
`clusters = none` models an absent optional `clusters` key. -/
structure MedianResponse where
  medianGeneExpression : Option (List MedianRecord)
  clusters : Option Clusters
deriving DecidableEq

/-- Parsed body of an `expression/topExpressedGene` response; `none` models a
missing `topExpressedGene` top-level key. -/
structure TopResponse where
  topExpressedGene : Option (List MedianRecord)
deriving DecidableEq

/-- Outcome of one network request: either the request or the JSON parse
failed (`netFail`), or a parsed body was obtained (`ok`). -/
inductive FetchOutcome (α : Type) where
  | netFail
  | ok (body : α)
deriving DecidableEq

/-- The exceptions the library can raise during model construction and the
similar-expression helper.  `configurationError` models the `ValueError`
raised by `Model.__init__` on a mismatched gencode-version / genome-build
pair (the spec's `ConfigurationError`); `apiError` models `GTExAPIError`
(the spec's `APIError`); `indexError` models indexing an empty tissue list;
`attributeError` models calling `.split` on `None`. -/
inductive PyError where
  | configurationError
  | apiError
  | indexError
  | attributeError
deriving DecidableEq

/-- The check in `Model.__init__` of `src/pyGTEx/models.py`: only
`("v26", "GRCh38/hg38")` and `("v19", "GRCh37/hg19")` are permitted. -/
def validConfig (gencodeVersion genomeBuild : String) : Bool :=
  (gencodeVersion == "v26" && genomeBuild == "GRCh38/hg38") ||
    (gencodeVersion == "v19" && genomeBuild == "GRCh37/hg19")

/-- State of a constructed `TissuesInfoModel`: `data` holds the `tissueInfo`
list once fetched (`none` before population). -/
structure TissuesInfoState where
  data : Option (List TissueRecord)
deriving DecidableEq

/-- `TissuesInfoModel.__init__` + `_fetch` (`src/pyGTEx/models.py`): validate
the configuration pair, perform one request, require the `tissueInfo` key,
store the list.  The second component counts performed network requests. -/
def TissuesInfoModel.construct (gencodeVersion genomeBuild : String)
    (outcome : FetchOutcome TissueResponse) :
    Except PyError TissuesInfoState × Nat :=
  if validConfig gencodeVersion genomeBuild then
    match outcome with
    | .netFail => (.error .apiError, 1)
    | .ok results =>
      match results.tissueInfo with
      | none => (.error .apiError, 1)
      | some tissues => (.ok ⟨some tissues⟩, 1)
  else (.error .configurationError, 0)

/-- State of a constructed `GeneModel`: the queried id and the selected gene
record.  `data = none` both before the fetch and when the selection loop in
`_fetch` matches no record. -/
structure GeneModelState where
  geneId : String
  data : Option GeneRecord
deriving DecidableEq

/-- The record-selection loop of `GeneModel._fetch`: skip records whose
`geneType` is not `"protein coding"`; on the first remaining record, take it
if the queried id starts with `"ENS"`, otherwise take it only when its symbol
matches the query case-insensitively; stop at the first record taken. -/
def GeneModel.fetchLoop (geneId : String) : List GeneRecord → Option GeneRecord
  | [] => none
  | g :: rest =>
    if g.geneType ≠ "protein coding" then GeneModel.fetchLoop geneId rest
    else if pyStartsWith geneId "ENS" then some g
    else if pyLower g.geneSymbol = pyLower geneId then some g
    else GeneModel.fetchLoop geneId rest

/-- `GeneModel.__init__` + `_fetch` (`src/pyGTEx/models.py`): validate the
configuration pair, perform one request, require the `gene` key, then run the
selection loop over the returned records. -/
def GeneModel.construct (geneId gencodeVersion genomeBuild : String)
    (outcome : FetchOutcome GeneResponse) :
    Except PyError GeneModelState × Nat :=
  if validConfig gencodeVersion genomeBuild then
    match outcome with
    | .netFail => (.error .apiError, 1)
    | .ok results =>
      match results.gene with
      | none => (.error .apiError, 1)
      | some genes => (.ok ⟨geneId, GeneModel.fetchLoop geneId genes⟩, 1)
  else (.error .configurationError, 0)

/-- `GeneModel.getGencodeId`; the `none` result models the exception Python
raises when `self.data` is still `None`. -/
def GeneModel.getGencodeId (st : GeneModelState) : Option String :=
  st.data.map fun g => g.gencodeId

/-- `GeneModel.getGeneSymbol`; `none` models the exception on `data = None`. -/
def GeneModel.getGeneSymbol (st : GeneModelState) : Option String :=
  st.data.map fun g => g.geneSymbol

/-- `GeneModel.getEntrezGeneId`; `none` models the exception on `data = None`. -/
def GeneModel.getEntrezGeneId (st : GeneModelState) : Option Int :=
  st.data.map fun g => g.entrezGeneId

/-- The qualifying predicate of claim C1, written from the spec's words: a
record qualifies when it is protein coding and either the queried id carries
the (case-sensitive) `"ENS"` GENCODE prefix — checked first — or the record's
symbol equals the query case-insensitively. -/
def GeneModel.qualifies (geneId : String) (g : GeneRecord) : Bool :=
  g.geneType == "protein coding" &&
    (pyStartsWith geneId "ENS" || pyLower g.geneSymbol == pyLower geneId)

/-- State of a constructed `GenesModel`. -/
structure GenesModelState where
  geneIds : List String
  data : Option (List GeneRecord)
deriving DecidableEq

/-- `GenesModel.__init__` + `_fetch` (`src/pyGTEx/models.py`): validate the
configuration pair, perform one request, require the `gene` key, store the
whole record list in server-response order. -/
def GenesModel.construct (geneIds : List String) (gencodeVersion genomeBuild : String)
    (outcome : FetchOutcome GeneResponse) :
    Except PyError GenesModelState × Nat :=
  if validConfig gencodeVersion genomeBuild then
    match outcome with
    | .netFail => (.error .apiError, 1)
    | .ok results =>
      match results.gene with
      | none => (.error .apiError, 1)
      | some genes => (.ok ⟨geneIds, some genes⟩, 1)
  else (.error .configurationError, 0)

/-- `GenesModel.getGencodeIds` as a function of the populated record list:
the list comprehension `[gene['gencodeId'] for gene in self.data if
gene['geneType'] == 'protein coding']`. -/
def GenesModel.getGencodeIds (data : List GeneRecord) : List String :=
  (data.filter fun g => g.geneType == "protein coding").map fun g => g.gencodeId

/-- `GenesModel.getGeneSymbols` on the populated record list. -/
def GenesModel.getGeneSymbols (data : List GeneRecord) : List String :=
  (data.filter fun g => g.geneType == "protein coding").map fun g => g.geneSymbol

/-- `GenesModel.getEntrezGeneIds` on the populated record list. -/
def GenesModel.getEntrezGeneIds (data : List GeneRecord) : List Int :=
  (data.filter fun g => g.geneType == "protein coding").map fun g => g.entrezGeneId

/-- State of a constructed `GeneExpressionModel` (`pygtex.py`). -/
structure GeneExpressionState where
  data : Option (List ExpressionEntry)
deriving DecidableEq

/-- `GeneExpressionModel.__init__` + `_fetch` (`pygtex.py`): one request,
require the `geneExpression` key, store the entry list.  This generation of
the code has no configuration-pair validation. -/
def GeneExpressionModel.construct (outcome : FetchOutcome GeneExpressionResponse) :
    Except PyError GeneExpressionState :=
  match outcome with
  | .netFail => .error .apiError
  | .ok results =>
    match results.geneExpression with
    | none => .error .apiError
    | some entries => .ok ⟨some entries⟩

/-- Insert a value into an already sorted list of rationals. -/
def insertSorted (x : Rat) : List Rat → List Rat
  | [] => [x]
  | y :: ys => if x ≤ y then x :: y :: ys else y :: insertSorted x ys

/-- Sort a list of rationals (insertion sort). -/
def sortRats (l : List Rat) : List Rat :=
  l.foldr insertSorted []

/-- `numpy.median` on a list of rationals: sort, then take the middle element
(odd length) or the mean of the two middle elements (even length).  `none`
models the error/invalid result on an empty input. -/
def npMedian (l : List Rat) : Option Rat :=
  let s := sortRats l
  if s = [] then none
  else if s.length % 2 = 1 then some (s.getD (s.length / 2) 0)
  else some ((s.getD (s.length / 2 - 1) 0 + s.getD (s.length / 2) 0) / 2)

/-- Python's `xs or ys` on lists: `ys` when `xs` is empty, else `xs`. -/
def pyListOr (l fallback : List Rat) : List Rat :=
  if l.isEmpty then fallback else l

/-- `GeneExpressionModel.getGeneExpression` on the populated entry list: one
tuple `(tissueSiteDetailId, median of (data or [0]), sample count,
subsetGroup)` per response entry. -/
def GeneExpressionModel.getGeneExpression (data : List ExpressionEntry) :
    List (String × Option Rat × Nat × Option String) :=
  data.map fun t =>
    (t.tissueSiteDetailId, npMedian (pyListOr t.data [0]), t.data.length, t.subsetGroup)

/-- State of a constructed `MedianGeneExpressionModel` (`pygtex.py`):
the record list and the optional `clusters` object. -/
structure MedianGeneExpressionState where
  data : Option (List MedianRecord)
  clusters : Option Clusters
deriving DecidableEq

/-- `MedianGeneExpressionModel.__init__` + `_fetch` (`pygtex.py`): one
request, require the `medianGeneExpression` key, store the record list; copy
`clusters` when the response carries that key (it stays `None` otherwise). -/
def MedianGeneExpressionModel.construct (outcome : FetchOutcome MedianResponse) :
    Except PyError MedianGeneExpressionState :=
  match outcome with
  | .netFail => .error .apiError
  | .ok results =>
    match results.medianGeneExpression with
    | none => .error .apiError
    | some records => .ok ⟨some records, results.clusters⟩

/-- `MedianGeneExpressionModel.getGenesCluster`: `None` when `self.clusters`
is falsy or the gene cluster string starts with `"Not enough data"`;
otherwise the gene cluster string unchanged. -/
def MedianGeneExpressionModel.getGenesCluster (st : MedianGeneExpressionState) :
    Option String :=
  match st.clusters with
  | none => none
  | some c => if pyStartsWith c.gene "Not enough data" then none else some c.gene

/-- `MedianGeneExpressionModel.getTissuesCluster`: same shape as
`getGenesCluster`, over the tissue cluster string. -/
def MedianGeneExpressionModel.getTissuesCluster (st : MedianGeneExpressionState) :
    Option String :=
  match st.clusters with
  | none => none
  | some c => if pyStartsWith c.tissue "Not enough data" then none else some c.tissue

/-- The sentinel test the claim C5 ties the accessors to: the corresponding
server-provided cluster string exists and begins with `"Not enough data"`. -/
def genesClusterHasSentinel (st : MedianGeneExpressionState) : Bool :=
  match st.clusters with
  | none => false
  | some c => pyStartsWith c.gene "Not enough data"

/-- State of a constructed `TopExpressedGeneModel` (`pygtex.py`). -/
structure TopExpressedGeneState where
  data : Option (List MedianRecord)
deriving DecidableEq

/-- `TopExpressedGeneModel.__init__` + `_fetch` (`pygtex.py`): one request,
require the `topExpressedGene` key, store the record list. -/
def TopExpressedGeneModel.construct (outcome : FetchOutcome TopResponse) :
    Except PyError TopExpressedGeneState :=
  match outcome with
  | .netFail => .error .apiError
  | .ok results =>
    match results.topExpressedGene with
    | none => .error .apiError
    | some records => .ok ⟨some records⟩

/-- The innermost loops of `getSimilarExpression` (`pygtex.py`), building one
`finalListSet` for one `")"`-split piece `item2`: split on `","`, split each
token on `":"`, and add `resolve gene` (the single-gene lookup's symbol) for
every sub-token `gene` contained in `gencodeGenes`. -/
def clusterSpanSet (gencodeGenes : List String) (resolve : String → String)
    (item2 : String) : Finset String :=
  (pySplit ',' item2).foldl
    (fun acc item3 =>
      (pySplit ':' item3).foldl
        (fun acc gene =>
          if gencodeGenes.contains gene then insert (resolve gene) acc else acc)
        acc)
    ∅

/-- The per-cluster-string part of `getSimilarExpression` (`pygtex.py`):
split the raw Newick string on `"("`, each fragment on `")"`, build the span
set of each piece, and append it to the running list when non-empty. -/
def similarSetsOfCluster (gencodeGenes : List String) (resolve : String → String)
    (raw : String) : List (Finset String) :=
  (pySplit '(' raw).foldl
    (fun acc item1 =>
      (pySplit ')' item1).foldl
        (fun acc item2 =>
          let finalListSet := clusterSpanSet gencodeGenes resolve item2
          if finalListSet = ∅ then acc else acc ++ [finalListSet])
        acc)
    []

/-- Modelled from the spec: step 3-5 of §4.3 for a single `")"`-split piece —
"split each resulting piece on `,`", "split each leaf token on `:`", keep a
sub-token only if it exactly matches one of the input GENCODE ids, resolve it
to a gene symbol and add the symbol to the current span's set. -/
def clusterSpanSetSpec (gencodeGenes : List String) (resolve : String → String)
    (piece : String) : Finset String :=
  ((pySplit ',' piece).flatMap (pySplit ':')).foldl
    (fun acc g => if gencodeGenes.contains g then insert (resolve g) acc else acc)
    ∅

/-- Modelled from the spec: the §4.3 decomposition of one cluster string —
split on `(`, split each fragment on `)`, form each piece's span set, discard
empty sets, and keep the non-empty sets in the order the splits produce. -/
def similarSetsSpec (gencodeGenes : List String) (resolve : String → String)
    (raw : String) : List (Finset String) :=
  (((pySplit '(' raw).flatMap (pySplit ')')).map
      (clusterSpanSetSpec gencodeGenes resolve)).filter
    fun s => !decide (s = ∅)

/-- The body of `getSimilarExpression`'s per-tissue-group loop (`pygtex.py`):
construct the median model from the group's fetch outcome, read the genes
cluster, key the result by `tissue[0]` (`indexError` on an empty group), and
split the cluster string (`attributeError` when the accessor returned
`None`). -/
def processGroup (gencodeGenes : List String) (resolve : String → String)
    (outcome : FetchOutcome MedianResponse) (tissue : List String) :
    Except PyError (String × List (Finset String)) :=
  match MedianGeneExpressionModel.construct outcome with
  | .error e => .error e
  | .ok st =>
    match tissue with
    | [] => .error .indexError
    | key :: _ =>
      match MedianGeneExpressionModel.getGenesCluster st with
      | none => .error .attributeError
      | some raw => .ok (key, similarSetsOfCluster gencodeGenes resolve raw)

/-- Python dict assignment `d[k] = v` on an insertion-ordered association
list: overwrite in place when the key exists, append otherwise. -/
def dictSet (d : List (String × List (Finset String))) (k : String)
    (v : List (Finset String)) : List (String × List (Finset String)) :=
  if d.any fun p => p.1 == k then
    d.map fun p => if p.1 == k then (k, v) else p
  else d ++ [(k, v)]

/-- One iteration of `getSimilarExpression`'s loop over tissue groups: a
pending exception propagates unchanged; otherwise the group is processed and
its result stored in the dictionary. -/
def simStep (gencodeGenes : List String) (resolve : String → String)
    (server : List String → FetchOutcome MedianResponse)
    (acc : Except PyError (List (String × List (Finset String))))
    (tissue : List String) :
    Except PyError (List (String × List (Finset String))) :=
  match acc with
  | .error e => .error e
  | .ok d =>
    match processGroup gencodeGenes resolve (server tissue) tissue with
    | .error e => .error e
    | .ok (k, v) => .ok (dictSet d k v)

/-- `getSimilarExpression` (`pygtex.py`): for each tissue group in order,
construct a median-gene-expression model (`server` gives each group's fetch
outcome), extract the per-group list of similar-gene sets, and store it under
the group's first tissue id.  The first exception aborts the whole call:
nothing is skipped and no partial mapping is returned.  `resolve` models the
single-gene lookup `GeneModel(gene).getGeneSymbol()`. -/
def getSimilarExpression (gencodeGenes : List String) (resolve : String → String)
    (server : List String → FetchOutcome MedianResponse)
    (tissues : List (List String)) :
    Except PyError (List (String × List (Finset String))) :=
  tissues.foldl (simStep gencodeGenes resolve server) (.ok [])

/-- The ACE gene record as returned by the live API (used as a fixture). -/
def aceRec : GeneRecord :=
  ⟨1636, "ENSG00000159640.15", "ACE", "protein coding"⟩

/-- The ACE2 gene record as returned by the live API (used as a fixture). -/
def ace2Rec : GeneRecord :=
  ⟨59272, "ENSG00000130234.10", "ACE2", "protein coding"⟩

theorem GeneModel.fetchLoop_eq_find (geneId : String) :
    ∀ genes : List GeneRecord,
      GeneModel.fetchLoop geneId genes = genes.find? (GeneModel.qualifies geneId) := by
  intro genes
  induction genes with
  | nil => rfl
  | cons g rest ih =>
    by_cases hpc : g.geneType = "protein coding"
    · by_cases hens : pyStartsWith geneId "ENS" = true
      · simp [GeneModel.fetchLoop, GeneModel.qualifies, hpc, hens, List.find?]
      · by_cases hsym : pyLower g.geneSymbol = pyLower geneId
        · simp [GeneModel.fetchLoop, GeneModel.qualifies, hpc, hens, hsym, List.find?]
        · simp [GeneModel.fetchLoop, GeneModel.qualifies, hpc, hens, hsym, List.find?, ih,
            beq_eq_false_iff_ne.mpr hsym]
    · simp [GeneModel.fetchLoop, GeneModel.qualifies, hpc, List.find?, ih,
        beq_eq_false_iff_ne.mpr hpc]

/-- C1: over any response record list, the single-gene lookup selects exactly
the first record (in response order) that is protein coding and qualifies —
the `"ENS"` GENCODE-prefix test on the queried id is checked before the
case-insensitive symbol comparison — and that record is the one stored in
`data` by construction and exposed by the accessors. -/
theorem c1_single_gene_lookup (geneId : String) (genes : List GeneRecord)
    (gencodeVersion genomeBuild : String)
    (hcfg : validConfig gencodeVersion genomeBuild = true) :
    GeneModel.fetchLoop geneId genes = genes.find? (GeneModel.qualifies geneId) ∧
    GeneModel.construct geneId gencodeVersion genomeBuild (.ok ⟨some genes⟩) =
      (.ok ⟨geneId, genes.find? (GeneModel.qualifies geneId)⟩, 1) ∧
    GeneModel.getGencodeId ⟨geneId, genes.find? (GeneModel.qualifies geneId)⟩ =
      (genes.find? (GeneModel.qualifies geneId)).map (fun g => g.gencodeId) ∧
    GeneModel.getGeneSymbol ⟨geneId, genes.find? (GeneModel.qualifies geneId)⟩ =
      (genes.find? (GeneModel.qualifies geneId)).map (fun g => g.geneSymbol) :=
  ⟨GeneModel.fetchLoop_eq_find geneId genes,
   by simp [GeneModel.construct, hcfg, GeneModel.fetchLoop_eq_find],
   rfl, rfl⟩

/-- Witness for C1 at the ACE/ACE2 fixture: the symbol query "ACE2" skips the
first protein-coding record (symbol "ACE") and stores the second. -/
theorem c1_single_gene_lookup_witness :
    GeneModel.construct "ACE2" "v26" "GRCh38/hg38" (.ok ⟨some [aceRec, ace2Rec]⟩) =
      (.ok ⟨"ACE2", [aceRec, ace2Rec].find? (GeneModel.qualifies "ACE2")⟩, 1) :=
  (c1_single_gene_lookup "ACE2" [aceRec, ace2Rec] "v26" "GRCh38/hg38" (by decide)).2.1

/-- C2: for every gencode-version / genome-build pair outside the two
permitted combinations, each validated model constructor fails with the
configuration error, performs zero network requests (the `Nat` component),
and produces no state — uniformly in whatever the network would have
returned. -/
theorem c2_invalid_config_fails_early (gencodeVersion genomeBuild : String)
    (hcfg : validConfig gencodeVersion genomeBuild = false) (geneId : String)
    (geneIds : List String) (o1 o2 : FetchOutcome GeneResponse)
    (o3 : FetchOutcome TissueResponse) :
    GeneModel.construct geneId gencodeVersion genomeBuild o1 =
      (.error .configurationError, 0) ∧
    GenesModel.construct geneIds gencodeVersion genomeBuild o2 =
      (.error .configurationError, 0) ∧
    TissuesInfoModel.construct gencodeVersion genomeBuild o3 =
      (.error .configurationError, 0) := by
  refine ⟨?_, ?_, ?_⟩ <;>
    simp [GeneModel.construct, GenesModel.construct, TissuesInfoModel.construct, hcfg]

/-- Witness for C2 at the mismatched pair ("v26", "GRCh37/hg19"). -/
theorem c2_invalid_config_fails_early_witness :
    GeneModel.construct "ACE2" "v26" "GRCh37/hg19" (.ok ⟨some [ace2Rec]⟩) =
      (.error .configurationError, 0) ∧
    GenesModel.construct ["ACE", "ACE2"] "v26" "GRCh37/hg19" (.ok ⟨some [aceRec, ace2Rec]⟩) =
      (.error .configurationError, 0) ∧
    TissuesInfoModel.construct "v26" "GRCh37/hg19" (.ok ⟨some []⟩) =
      (.error .configurationError, 0) :=
  c2_invalid_config_fails_early "v26" "GRCh37/hg19" (by decide) "ACE2" ["ACE", "ACE2"]
    (.ok ⟨some [ace2Rec]⟩) (.ok ⟨some [aceRec, ace2Rec]⟩) (.ok ⟨some []⟩)

/-- C4 counterexample: a `reference/gene` response whose `gene` list contains
no qualifying record (here: the empty list) lets `GeneModel` construction
succeed while its stored `data` is still `None` — a half-initialized
instance is exposed to the caller, refuting the claim for `GeneModel`. -/
theorem c4_counterexample_gene_model_none_data :
    GeneModel.construct "ACE2" "v26" "GRCh38/hg38" (.ok ⟨some []⟩) =
      (.ok ⟨"ACE2", none⟩, 1) ∧
    (GeneModelState.mk "ACE2" none).data = none :=
  ⟨rfl, rfl⟩

/-- C4 amended: for every model class except the single-gene `GeneModel`,
construction either raises or yields a state whose `data` is populated
(not `None`); `GeneModel` alone can complete construction with `data = None`
when no response record qualifies. -/
theorem c4_other_models_fully_populated
    (gencodeVersion genomeBuild : String) (geneIds : List String)
    (o1 : FetchOutcome TissueResponse) (o2 : FetchOutcome GeneResponse)
    (o3 : FetchOutcome GeneExpressionResponse) (o4 : FetchOutcome MedianResponse)
    (o5 : FetchOutcome TopResponse) :
    (∀ st n, TissuesInfoModel.construct gencodeVersion genomeBuild o1 = (.ok st, n) →
      st.data ≠ none) ∧
    (∀ st n, GenesModel.construct geneIds gencodeVersion genomeBuild o2 = (.ok st, n) →
      st.data ≠ none) ∧
    (∀ st, GeneExpressionModel.construct o3 = .ok st → st.data ≠ none) ∧
    (∀ st, MedianGeneExpressionModel.construct o4 = .ok st → st.data ≠ none) ∧
    (∀ st, TopExpressedGeneModel.construct o5 = .ok st → st.data ≠ none) := by
  refine ⟨?_, ?_, ?_, ?_, ?_⟩
  · intro st n h
    unfold TissuesInfoModel.construct at h
    split at h
    · cases o1 with
      | netFail => simp at h
      | ok r =>
        obtain ⟨ti⟩ := r
        cases ti with
        | none => simp at h
        | some l =>
          simp only [] at h
          obtain ⟨h1, -⟩ := Prod.mk.injEq .. ▸ h
          cases h1
          simp
    · simp at h
  · intro st n h
    unfold GenesModel.construct at h
    split at h
    · cases o2 with
      | netFail => simp at h
      | ok r =>
        obtain ⟨ge⟩ := r
        cases ge with
        | none => simp at h
        | some l =>
          simp only [] at h
          obtain ⟨h1, -⟩ := Prod.mk.injEq .. ▸ h
          cases h1
          simp
    · simp at h
  · intro st h
    unfold GeneExpressionModel.construct at h
    cases o3 with
    | netFail => simp at h
    | ok r =>
      obtain ⟨ge⟩ := r
      cases ge with
      | none => simp at h
      | some l => cases h; simp
  · intro st h
    unfold MedianGeneExpressionModel.construct at h
    cases o4 with
    | netFail => simp at h
    | ok r =>
      obtain ⟨mg, cl⟩ := r
      cases mg with
      | none => simp at h
      | some l => cases h; simp
  · intro st h
    unfold TopExpressedGeneModel.construct at h
    cases o5 with
    | netFail => simp at h
    | ok r =>
      obtain ⟨tg⟩ := r
      cases tg with
      | none => simp at h
      | some l => cases h; simp

/-- Witness for the amended C4 at concrete populated responses. -/
theorem c4_other_models_fully_populated_witness :
    (TissuesInfoState.mk (some [])).data ≠ none ∧
    (GeneExpressionState.mk (some [])).data ≠ none :=
  ⟨(c4_other_models_fully_populated "v26" "GRCh38/hg38" [] (.ok ⟨some []⟩)
      (.ok ⟨some []⟩) (.ok ⟨some []⟩) (.ok ⟨some [], none⟩) (.ok ⟨some []⟩)).1
    ⟨some []⟩ 1 rfl,
   (c4_other_models_fully_populated "v26" "GRCh38/hg38" [] (.ok ⟨some []⟩)
      (.ok ⟨some []⟩) (.ok ⟨some []⟩) (.ok ⟨some [], none⟩) (.ok ⟨some []⟩)).2.2.1
    ⟨some []⟩ rfl⟩

/-- C5 counterexample: after a successful construction from a response that
carries `medianGeneExpression` but no `clusters` key, `getGenesCluster`
returns `None` although no server-provided cluster string begins with the
"Not enough data" sentinel — refuting the claimed "exactly when". -/
theorem c5_counterexample_absent_clusters :
    MedianGeneExpressionModel.construct (.ok ⟨some [], none⟩) = .ok ⟨some [], none⟩ ∧
    ¬ (MedianGeneExpressionModel.getGenesCluster ⟨some [], none⟩ = none ↔
        genesClusterHasSentinel ⟨some [], none⟩ = true) :=
  ⟨rfl, by decide⟩

/-- C5 amended: the cluster accessors return `None` exactly when the
`clusters` object is absent or the corresponding cluster string begins with
the literal sentinel "Not enough data"; otherwise they return that cluster
string unchanged. -/
theorem c5_cluster_accessors_amended (st : MedianGeneExpressionState) :
    (MedianGeneExpressionModel.getGenesCluster st = none ↔
      st.clusters = none ∨
        ∃ c, st.clusters = some c ∧ pyStartsWith c.gene "Not enough data" = true) ∧
    (∀ c, st.clusters = some c → pyStartsWith c.gene "Not enough data" = false →
      MedianGeneExpressionModel.getGenesCluster st = some c.gene) ∧
    (MedianGeneExpressionModel.getTissuesCluster st = none ↔
      st.clusters = none ∨
        ∃ c, st.clusters = some c ∧ pyStartsWith c.tissue "Not enough data" = true) ∧
    (∀ c, st.clusters = some c → pyStartsWith c.tissue "Not enough data" = false →
      MedianGeneExpressionModel.getTissuesCluster st = some c.tissue) := by
  obtain ⟨d, cl⟩ := st
  cases cl with
  | none =>
    simp [MedianGeneExpressionModel.getGenesCluster,
      MedianGeneExpressionModel.getTissuesCluster]
  | some c =>
    by_cases hg : pyStartsWith c.gene "Not enough data" = true <;>
      by_cases ht : pyStartsWith c.tissue "Not enough data" = true <;>
        simp [MedianGeneExpressionModel.getGenesCluster,
          MedianGeneExpressionModel.getTissuesCluster, hg, ht]

/-- A clusters object whose tissue string carries the sentinel while the gene
string is a genuine Newick cluster (fixture for the C5 witness). -/
def partialClusters : Clusters :=
  ⟨"(A,B)", "Not enough data for clustering"⟩

/-- Witness for the amended C5: the gene accessor passes the cluster string
through unchanged while the tissue accessor yields `None` on the sentinel. -/
theorem c5_cluster_accessors_amended_witness :
    MedianGeneExpressionModel.getGenesCluster ⟨some [], some partialClusters⟩ =
      some "(A,B)" ∧
    MedianGeneExpressionModel.getTissuesCluster ⟨some [], some partialClusters⟩ =
      none :=
  ⟨(c5_cluster_accessors_amended ⟨some [], some partialClusters⟩).2.1
      partialClusters rfl (by decide),
   ((c5_cluster_accessors_amended ⟨some [], some partialClusters⟩).2.2.1).mpr
      (Or.inr ⟨partialClusters, rfl, by decide⟩)⟩

/-- C6: with a valid configuration pair, every endpoint model fails
construction with the API error when the parsed response lacks its required
top-level key — and equally on a network failure, so the error kind is
independent of whether a network error occurred. -/
theorem c6_missing_key_api_error (gencodeVersion genomeBuild : String)
    (hcfg : validConfig gencodeVersion genomeBuild = true)
    (geneId : String) (geneIds : List String) (c : Option Clusters) :
    TissuesInfoModel.construct gencodeVersion genomeBuild (.ok ⟨none⟩) =
      (.error .apiError, 1) ∧
    TissuesInfoModel.construct gencodeVersion genomeBuild .netFail =
      (.error .apiError, 1) ∧
    GeneModel.construct geneId gencodeVersion genomeBuild (.ok ⟨none⟩) =
      (.error .apiError, 1) ∧
    GeneModel.construct geneId gencodeVersion genomeBuild .netFail =
      (.error .apiError, 1) ∧
    GenesModel.construct geneIds gencodeVersion genomeBuild (.ok ⟨none⟩) =
      (.error .apiError, 1) ∧
    GenesModel.construct geneIds gencodeVersion genomeBuild .netFail =
      (.error .apiError, 1) ∧
    GeneExpressionModel.construct (.ok ⟨none⟩) = .error .apiError ∧
    GeneExpressionModel.construct .netFail = .error .apiError ∧
    MedianGeneExpressionModel.construct (.ok ⟨none, c⟩) = .error .apiError ∧
    MedianGeneExpressionModel.construct .netFail = .error .apiError ∧
    TopExpressedGeneModel.construct (.ok ⟨none⟩) = .error .apiError ∧
    TopExpressedGeneModel.construct .netFail = .error .apiError := by
  refine ⟨?_, ?_, ?_, ?_, ?_, ?_, rfl, rfl, rfl, rfl, rfl, rfl⟩ <;>
    simp [TissuesInfoModel.construct, GeneModel.construct, GenesModel.construct, hcfg]

/-- Witness for C6 at the valid pair ("v26", "GRCh38/hg38"). -/
theorem c6_missing_key_api_error_witness :
    GeneModel.construct "ACE2" "v26" "GRCh38/hg38" (.ok ⟨none⟩) =
      (.error .apiError, 1) ∧
    MedianGeneExpressionModel.construct (.ok ⟨none, some partialClusters⟩) =
      .error .apiError :=
  ⟨(c6_missing_key_api_error "v26" "GRCh38/hg38" (by decide) "ACE2" []
      (some partialClusters)).2.2.1,
   (c6_missing_key_api_error "v26" "GRCh38/hg38" (by decide) "ACE2" []
      (some partialClusters)).2.2.2.2.2.2.2.2.1⟩

/-- C7 counterexample: with input query ids `["ACE", "ACE2"]` but a server
response listing the ACE2 record first, the accessor output follows the
response order `["ACE2", "ACE"]`, which is not an order-preserving
subsequence of the input ids — the claimed input-order guarantee fails. -/
theorem c7_counterexample_response_order :
    GenesModel.getGeneSymbols [ace2Rec, aceRec] = ["ACE2", "ACE"] ∧
    ¬ List.Sublist (GenesModel.getGeneSymbols [ace2Rec, aceRec]) ["ACE", "ACE2"] := by
  refine ⟨rfl, ?_⟩
  intro h
  exact absurd (show (["ACE2", "ACE"] : List String) = ["ACE", "ACE2"] from
    h.eq_of_length rfl) (by decide)

/-- C7 amended: the multi-gene list accessors return exactly the
protein-coding records' fields, preserving the server response order (the
output is an order-preserving sublist of the response's projection); the
input query's relative order is obtained only when the server returns the
records in the input's order. -/
theorem c7_accessors_order_amended (data : List GeneRecord) (geneIds : List String) :
    List.Sublist (GenesModel.getGeneSymbols data) (data.map fun g => g.geneSymbol) ∧
    List.Sublist (GenesModel.getGencodeIds data) (data.map fun g => g.gencodeId) ∧
    List.Sublist (GenesModel.getEntrezGeneIds data) (data.map fun g => g.entrezGeneId) ∧
    (∀ s ∈ GenesModel.getGeneSymbols data,
      ∃ g ∈ data, g.geneType = "protein coding" ∧ s = g.geneSymbol) ∧
    (∀ s ∈ GenesModel.getGencodeIds data,
      ∃ g ∈ data, g.geneType = "protein coding" ∧ s = g.gencodeId) ∧
    (∀ i ∈ GenesModel.getEntrezGeneIds data,
      ∃ g ∈ data, g.geneType = "protein coding" ∧ i = g.entrezGeneId) ∧
    ((∀ g ∈ data, g.geneType = "protein coding") →
      (data.map fun g => g.geneSymbol) = geneIds →
      GenesModel.getGeneSymbols data = geneIds) := by
  refine ⟨?_, ?_, ?_, ?_, ?_, ?_, ?_⟩
  · exact (List.filter_sublist data).map _
  · exact (List.filter_sublist data).map _
  · exact (List.filter_sublist data).map _
  · intro s hs
    simp only [GenesModel.getGeneSymbols, List.mem_map, List.mem_filter] at hs
    obtain ⟨g, ⟨hg, hpc⟩, rfl⟩ := hs
    exact ⟨g, hg, by simpa using hpc, rfl⟩
  · intro s hs
    simp only [GenesModel.getGencodeIds, List.mem_map, List.mem_filter] at hs
    obtain ⟨g, ⟨hg, hpc⟩, rfl⟩ := hs
    exact ⟨g, hg, by simpa using hpc, rfl⟩
  · intro i hi
    simp only [GenesModel.getEntrezGeneIds, List.mem_map, List.mem_filter] at hi
    obtain ⟨g, ⟨hg, hpc⟩, rfl⟩ := hi
    exact ⟨g, hg, by simpa using hpc, rfl⟩
  · intro hall heq
    have hfil : data.filter (fun g => g.geneType == "protein coding") = data :=
      List.filter_eq_self.mpr fun g hg => by simp [hall g hg]
    simp [GenesModel.getGeneSymbols, hfil, heq]

/-- Witness for the amended C7: when the server echoes the input order and
every record is protein coding, the symbols come back in input order. -/
theorem c7_accessors_order_amended_witness :
    GenesModel.getGeneSymbols [aceRec, ace2Rec] = ["ACE", "ACE2"] :=
  (c7_accessors_order_amended [aceRec, ace2Rec] ["ACE", "ACE2"]).2.2.2.2.2.2
    (by decide) rfl

theorem GeneModel.fetchLoop_ens (s : String) (hens : pyStartsWith s "ENS" = true) :
    ∀ recs : List GeneRecord,
      GeneModel.fetchLoop s recs =
        recs.find? fun r => r.geneType == "protein coding" := by
  intro recs
  induction recs with
  | nil => rfl
  | cons r rest ih =>
    by_cases hpc : r.geneType = "protein coding"
    · simp [GeneModel.fetchLoop, hpc, hens, List.find?]
    · simp [GeneModel.fetchLoop, hpc, List.find?, ih, beq_eq_false_iff_ne.mpr hpc]

theorem GeneModel.fetchLoop_symbol_of_first_pc (s : String) (g : GeneRecord) :
    ∀ recs : List GeneRecord,
      recs.find? (fun r => r.geneType == "protein coding") = some g →
      pyLower g.geneSymbol = pyLower s →
      GeneModel.fetchLoop s recs = some g := by
  intro recs
  induction recs with
  | nil => intro h; simp at h
  | cons r rest ih =>
    intro hfind hsym
    by_cases hpc : r.geneType = "protein coding"
    · have hrg : r = g := by
        rw [List.find?_cons_of_pos _ (by simp [hpc])] at hfind
        exact Option.some.inj hfind
      subst hrg
      by_cases hens : pyStartsWith s "ENS" = true
      · simp [GeneModel.fetchLoop, hpc, hens]
      · simp [GeneModel.fetchLoop, hpc, hens, hsym]
    · rw [List.find?_cons_of_neg _ (by simp [hpc])] at hfind
      simp only [GeneModel.fetchLoop, if_pos (by simp [hpc] : r.geneType ≠ "protein coding")]
      exact ih hfind hsym

/-- C8 counterexample: with the server returning the same fixed record list
`[ACE, ACE2]` (both protein coding) for every query form, the unversioned
GENCODE query `"ENSG00000130234"` resolves to the ACE record (the first
protein-coding record) while the symbol query `"ACE2"` resolves to the ACE2
record — the query forms do not resolve to the same underlying record. -/
theorem c8_counterexample_distinct_records :
    GeneModel.fetchLoop "ENSG00000130234" [aceRec, ace2Rec] = some aceRec ∧
    GeneModel.fetchLoop "ACE2" [aceRec, ace2Rec] = some ace2Rec ∧
    aceRec ≠ ace2Rec := by
  refine ⟨by decide, by decide, by decide⟩

/-- C8 amended: over a fixed record list, the bare GENCODE id, the versioned
GENCODE id and the gene symbol all resolve to the same stored record,
provided the first protein-coding record of the response is the one whose
symbol matches the queried symbol case-insensitively. -/
theorem c8_query_forms_amended (bareId verId sym : String)
    (recs : List GeneRecord) (g : GeneRecord)
    (hbare : pyStartsWith bareId "ENS" = true)
    (hver : pyStartsWith verId "ENS" = true)
    (hfirst : recs.find? (fun r => r.geneType == "protein coding") = some g)
    (hsym : pyLower g.geneSymbol = pyLower sym) :
    GeneModel.fetchLoop bareId recs = some g ∧
    GeneModel.fetchLoop verId recs = some g ∧
    GeneModel.fetchLoop sym recs = some g :=
  ⟨(GeneModel.fetchLoop_ens bareId hbare recs).trans hfirst,
   (GeneModel.fetchLoop_ens verId hver recs).trans hfirst,
   GeneModel.fetchLoop_symbol_of_first_pc sym g recs hfirst hsym⟩

/-- Witness for the amended C8 at the ACE2 fixture: `"ENSG00000130234"`,
`"ENSG00000130234.10"` and `"ACE2"` all resolve to the ACE2 record. -/
theorem c8_query_forms_amended_witness :
    GeneModel.fetchLoop "ENSG00000130234" [ace2Rec] = some ace2Rec ∧
    GeneModel.fetchLoop "ENSG00000130234.10" [ace2Rec] = some ace2Rec ∧
    GeneModel.fetchLoop "ACE2" [ace2Rec] = some ace2Rec :=
  c8_query_forms_amended "ENSG00000130234" "ENSG00000130234.10" "ACE2" [ace2Rec] ace2Rec
    (by decide) (by decide) (by decide) (by decide)

theorem insertSorted_ne_nil (x : Rat) (l : List Rat) : insertSorted x l ≠ [] := by
  cases l with
  | nil => simp [insertSorted]
  | cons y ys =>
    simp only [insertSorted]
    split <;> simp

theorem sortRats_eq_nil_iff (l : List Rat) : sortRats l = [] ↔ l = [] := by
  cases l with
  | nil => simp [sortRats]
  | cons x xs =>
    simp only [sortRats, List.foldr_cons]
    constructor
    · intro h; exact absurd h (insertSorted_ne_nil x _)
    · intro h; cases h

theorem npMedian_ne_none (l : List Rat) (h : l ≠ []) : npMedian l ≠ none := by
  have hs : ¬ sortRats l = [] := fun hh => h ((sortRats_eq_nil_iff l).mp hh)
  unfold npMedian
  simp only [hs, if_false]
  split <;> simp

theorem npMedian_single_zero : npMedian [0] = some 0 := rfl

/-- C9: a gene-expression response entry with an empty raw sample sequence
does not fail — its tuple carries the fallback median `0` and sample count
`0`; and for every entry of every response the computed median is defined
(the empty-input branch of the median is unreachable, since the argument
`data or [0]` is never empty). -/
theorem c9_empty_samples_fallback (e : ExpressionEntry) (l : List ExpressionEntry) :
    (e.data = [] →
      GeneExpressionModel.getGeneExpression [e] =
        [(e.tissueSiteDetailId, some 0, 0, e.subsetGroup)]) ∧
    ∀ r ∈ GeneExpressionModel.getGeneExpression l, r.2.1 ≠ none := by
  constructor
  · intro h
    simp [GeneExpressionModel.getGeneExpression, h, pyListOr, npMedian_single_zero]
  · intro r hr
    simp only [GeneExpressionModel.getGeneExpression, List.mem_map] at hr
    obtain ⟨t, ht, rfl⟩ := hr
    have harg : pyListOr t.data [0] ≠ [] := by
      unfold pyListOr
      split
      · simp
      · simp_all [List.isEmpty_iff]
    exact npMedian_ne_none _ harg

/-- Witness for C9 at a concrete empty-sample entry. -/
theorem c9_empty_samples_fallback_witness :
    GeneExpressionModel.getGeneExpression
        [⟨[], "gtex_v8", "ENSG00000186318.16", "BACE1", "Thyroid", "TPM", none⟩] =
      [("Thyroid", some 0, 0, none)] :=
  (c9_empty_samples_fallback
      ⟨[], "gtex_v8", "ENSG00000186318.16", "BACE1", "Thyroid", "TPM", none⟩ []).1 rfl

theorem foldl_nested_flatMap {α β σ : Type} (h : α → List β) (g : σ → β → σ) :
    ∀ (l : List α) (init : σ),
      l.foldl (fun s a => (h a).foldl g s) init = (l.flatMap h).foldl g init := by
  intro l
  induction l with
  | nil => intro init; rfl
  | cons a as ih => intro init; simp [List.foldl_append, ih]

theorem foldl_collect_nonempty {σ : Type} (f : σ → Finset String) :
    ∀ (l : List σ) (acc : List (Finset String)),
      l.foldl (fun a x => if f x = ∅ then a else a ++ [f x]) acc =
        acc ++ (l.map f).filter fun s => !decide (s = ∅) := by
  intro l
  induction l with
  | nil => intro acc; simp
  | cons x xs ih =>
    intro acc
    by_cases h : f x = ∅
    · simp [List.foldl_cons, h, ih]
    · simp [List.foldl_cons, h, ih]

theorem clusterSpanSet_eq_spec (gencodeGenes : List String)
    (resolve : String → String) (piece : String) :
    clusterSpanSet gencodeGenes resolve piece =
      clusterSpanSetSpec gencodeGenes resolve piece :=
  foldl_nested_flatMap (pySplit ':')
    (fun acc gene =>
      if gencodeGenes.contains gene then insert (resolve gene) acc else acc)
    (pySplit ',' piece) ∅

theorem similarSets_eq_spec (gencodeGenes : List String)
    (resolve : String → String) (raw : String) :
    similarSetsOfCluster gencodeGenes resolve raw =
      similarSetsSpec gencodeGenes resolve raw := by
  show (pySplit '(' raw).foldl
      (fun acc item1 =>
        (pySplit ')' item1).foldl
          (fun acc item2 =>
            if clusterSpanSet gencodeGenes resolve item2 = ∅ then acc
            else acc ++ [clusterSpanSet gencodeGenes resolve item2])
          acc)
      [] = _
  rw [foldl_nested_flatMap (pySplit ')')
      (fun acc item2 =>
        if clusterSpanSet gencodeGenes resolve item2 = ∅ then acc
        else acc ++ [clusterSpanSet gencodeGenes resolve item2])]
  rw [foldl_collect_nonempty (clusterSpanSet gencodeGenes resolve)]
  have hf : clusterSpanSet gencodeGenes resolve =
      clusterSpanSetSpec gencodeGenes resolve :=
    funext fun p => clusterSpanSet_eq_spec gencodeGenes resolve p
  rw [hf]
  simp [similarSetsSpec]

/-- C3: the per-cluster-string extraction of `getSimilarExpression` computes
exactly the spec's nested-split decomposition — split on `(`, then `)`, then
`,`, then `:`, keep exact matches of the queried GENCODE ids resolved to
symbols, and keep the non-empty span sets in split order — and each
successfully processed tissue group stores, under the group's first tissue
id, exactly that sequence of sets for its genes-cluster string. -/
theorem c3_cluster_extraction (gencodeGenes : List String)
    (resolve : String → String) (raw : String) :
    similarSetsOfCluster gencodeGenes resolve raw =
      similarSetsSpec gencodeGenes resolve raw ∧
    ∀ (outcome : FetchOutcome MedianResponse) (tissue : List String) k v,
      processGroup gencodeGenes resolve outcome tissue = .ok (k, v) →
      ∃ st raw2, MedianGeneExpressionModel.construct outcome = .ok st ∧
        MedianGeneExpressionModel.getGenesCluster st = some raw2 ∧
        tissue.head? = some k ∧
        v = similarSetsSpec gencodeGenes resolve raw2 := by
  refine ⟨similarSets_eq_spec gencodeGenes resolve raw, ?_⟩
  intro outcome tissue k v h
  unfold processGroup at h
  cases hc : MedianGeneExpressionModel.construct outcome with
  | error e => rw [hc] at h; simp at h
  | ok st =>
    rw [hc] at h
    cases tissue with
    | nil => simp at h
    | cons key rest =>
      have h2 : (match MedianGeneExpressionModel.getGenesCluster st with
          | none => (Except.error PyError.attributeError :
              Except PyError (String × List (Finset String)))
          | some raw => Except.ok (key, similarSetsOfCluster gencodeGenes resolve raw)) =
          Except.ok (k, v) := h
      cases hg : MedianGeneExpressionModel.getGenesCluster st with
      | none => rw [hg] at h2; simp at h2
      | some raw2 =>
        rw [hg] at h2
        simp only [Except.ok.injEq, Prod.mk.injEq] at h2
        obtain ⟨hk, hv⟩ := h2
        exact ⟨st, raw2, rfl, hg, by simp [hk],
          by rw [← hv, similarSets_eq_spec]⟩

/-- Witness for C3: a concrete processed group stores, under its first
tissue id, the spec decomposition of its genes-cluster string. -/
theorem c3_cluster_extraction_witness :
    ∃ st raw2,
      MedianGeneExpressionModel.construct
          (.ok ⟨some [], some ⟨"(G1:1,G2:2)", "tcl"⟩⟩) = .ok st ∧
      MedianGeneExpressionModel.getGenesCluster st = some raw2 ∧
      (["Lung"] : List String).head? = some "Lung" ∧
      similarSetsOfCluster ["G1", "G2"] (fun g => g ++ "sym") "(G1:1,G2:2)" =
        similarSetsSpec ["G1", "G2"] (fun g => g ++ "sym") raw2 :=
  (c3_cluster_extraction ["G1", "G2"] (fun g => g ++ "sym") "").2
    (.ok ⟨some [], some ⟨"(G1:1,G2:2)", "tcl"⟩⟩) ["Lung"] "Lung"
    (similarSetsOfCluster ["G1", "G2"] (fun g => g ++ "sym") "(G1:1,G2:2)") rfl

theorem foldl_simStep_error (gencodeGenes : List String) (resolve : String → String)
    (server : List String → FetchOutcome MedianResponse) (e : PyError) :
    ∀ tissues : List (List String),
      tissues.foldl (simStep gencodeGenes resolve server) (.error e) = .error e := by
  intro tissues
  induction tissues with
  | nil => rfl
  | cons t ts ih =>
    simp only [List.foldl_cons]
    exact ih

theorem processGroup_error_of_none_cluster (gencodeGenes : List String)
    (resolve : String → String) (outcome : FetchOutcome MedianResponse)
    (tissue : List String) (st : MedianGeneExpressionState)
    (hok : MedianGeneExpressionModel.construct outcome = .ok st)
    (hnone : MedianGeneExpressionModel.getGenesCluster st = none) :
    ∃ e, processGroup gencodeGenes resolve outcome tissue = .error e := by
  unfold processGroup
  rw [hok]
  cases tissue with
  | nil => exact ⟨.indexError, rfl⟩
  | cons key rest =>
    refine ⟨.attributeError, ?_⟩
    have h2 : (match MedianGeneExpressionModel.getGenesCluster st with
        | none => (Except.error PyError.attributeError :
            Except PyError (String × List (Finset String)))
        | some raw =>
            Except.ok (key, similarSetsOfCluster gencodeGenes resolve raw)) =
        Except.error PyError.attributeError := by
      rw [hnone]
    exact h2

theorem foldl_simStep_err_of_group (gencodeGenes : List String)
    (resolve : String → String)
    (server : List String → FetchOutcome MedianResponse) :
    ∀ (tissues : List (List String)) (d : List (String × List (Finset String))),
      (∃ t ∈ tissues, ∃ e, processGroup gencodeGenes resolve (server t) t = .error e) →
      ∃ e, tissues.foldl (simStep gencodeGenes resolve server) (.ok d) = .error e := by
  intro tissues
  induction tissues with
  | nil => intro d h; simp at h
  | cons t0 rest ih =>
    intro d h
    obtain ⟨t, ht, e, hpe⟩ := h
    rcases List.mem_cons.mp ht with heq | htrest
    · subst heq
      have hstep : simStep gencodeGenes resolve server (.ok d) t = .error e := by
        unfold simStep
        rw [hpe]
      simp only [List.foldl_cons]
      rw [hstep]
      exact ⟨e, foldl_simStep_error gencodeGenes resolve server e rest⟩
    · cases hstep : simStep gencodeGenes resolve server (.ok d) t0 with
      | error e2 =>
        simp only [List.foldl_cons]
        rw [hstep]
        exact ⟨e2, foldl_simStep_error gencodeGenes resolve server e2 rest⟩
      | ok d2 =>
        simp only [List.foldl_cons]
        rw [hstep]
        exact ih d2 ⟨t, htrest, e, hpe⟩

/-- C10: whenever some tissue group's median model constructs successfully
but its genes-cluster accessor yields `None` (e.g. the sentinel or an absent
clusters object), `getSimilarExpression` ends in an exception — it neither
skips that group nor returns a partial mapping for groups already done. -/
theorem c10_unavailable_cluster_error (gencodeGenes : List String)
    (resolve : String → String)
    (server : List String → FetchOutcome MedianResponse)
    (tissues : List (List String))
    (hbad : ∃ t ∈ tissues, ∃ st,
      MedianGeneExpressionModel.construct (server t) = .ok st ∧
      MedianGeneExpressionModel.getGenesCluster st = none) :
    ∃ e, getSimilarExpression gencodeGenes resolve server tissues = .error e := by
  obtain ⟨t, ht, st, hok, hnone⟩ := hbad
  exact foldl_simStep_err_of_group gencodeGenes resolve server tissues []
    ⟨t, ht, processGroup_error_of_none_cluster gencodeGenes resolve (server t) t st
      hok hnone⟩

/-- Witness for C10: one tissue group whose response has no clusters object. -/
theorem c10_unavailable_cluster_error_witness :
    ∃ e, getSimilarExpression ["G1"] (fun g => g)
        (fun _ => .ok ⟨some [], none⟩) [["Lung"]] = .error e :=
  c10_unavailable_cluster_error ["G1"] (fun g => g) (fun _ => .ok ⟨some [], none⟩)
    [["Lung"]] ⟨["Lung"], by simp, ⟨some [], none⟩, rfl, rfl⟩
